import Mathlib

/-!
Shallow embedding of the alert/automation engine of the Kismet Sentinel
Dashboard (src/kismet-sentinel-dashboard.py) and proofs about it.

Conventions of the embedding:
* Python dict lookups with defaults (`d.get(k, v)`) become `Option` fields
  read with `Option.getD`.
* Wall-clock readings (`time.time()`, `datetime.now()`) become explicit
  parameters; `int(time.time() * 1000)` is a `Nat` millisecond count.
* The process-wide mutable lists/dicts become explicit state arguments and
  return values (`state["alerts"]`, `state["alert_saves"]`,
  `state["watched_devices"]`).
* The alert categories keep the literal strings of the code: "drone",
  "signal", "kismet", "save", "error".
-/

namespace KismetDash

/-- One entry of `state["alerts"]` as built by `push_alert`: the iso
timestamp is abstracted to the same millisecond count that feeds the
`id` field (both come from the current wall clock). -/
structure AlertEntry where
  ts : Nat
  atype : String
  severity : String
  title : String
  body : String
  id : Nat
deriving Repr, DecidableEq

/-- MAX_ALERTS = 500 (line 58). -/
def MAX_ALERTS : Nat := 500

/-- The alert dict literal built inside `push_alert` (lines 440-447):
`ts` is `datetime.now().isoformat()` and `id` is `int(time.time()*1000)`,
both read from the wall clock passed here as `nowMs`. -/
def mkAlertEntry (nowMs : Nat) (atype severity title body : String) : AlertEntry :=
  ⟨nowMs, atype, severity, title, body, nowMs⟩

/-- The alert-store mutation of `push_alert` (lines 448-450):
`insert(0, entry)` then `pop()` of the tail when the length exceeds
`MAX_ALERTS`. -/
def pushAlertStore (e : AlertEntry) (alerts : List AlertEntry) : List AlertEntry :=
  let l := e :: alerts
  if MAX_ALERTS < l.length then l.dropLast else l

/-- A sequence of `push_alert` store mutations, in chronological order. -/
def pushMany (es : List AlertEntry) (alerts : List AlertEntry) : List AlertEntry :=
  es.foldl (fun st e => pushAlertStore e st) alerts

theorem take_append_take {α : Type} (a b : List α) (n : Nat) :
    (a ++ b.take n).take n = (a ++ b).take n := by
  rw [List.take_append_eq_append_take, List.take_append_eq_append_take,
    List.take_take, Nat.min_eq_left (Nat.sub_le n a.length)]

theorem pushAlertStore_eq_take (e : AlertEntry) (alerts : List AlertEntry)
    (h : alerts.length ≤ MAX_ALERTS) :
    pushAlertStore e alerts = (e :: alerts).take MAX_ALERTS := by
  unfold pushAlertStore
  rcases Nat.lt_or_ge alerts.length MAX_ALERTS with hlt | hge
  · rw [if_neg (by simp only [List.length_cons]; omega)]
    exact (List.take_of_length_le (by simp only [List.length_cons]; omega)).symm
  · have heq : alerts.length = MAX_ALERTS := Nat.le_antisymm h hge
    rw [if_pos (by simp only [List.length_cons]; omega)]
    rw [List.dropLast_eq_take]
    simp [heq]

theorem pushMany_eq_take (es init : List AlertEntry) (h : init.length ≤ MAX_ALERTS) :
    pushMany es init = (es.reverse ++ init).take MAX_ALERTS := by
  induction es generalizing init with
  | nil =>
    simp only [pushMany, List.foldl_nil, List.reverse_nil, List.nil_append]
    exact (List.take_of_length_le h).symm
  | cons e es ih =>
    have h1 : pushMany (e :: es) init = pushMany es (pushAlertStore e init) := rfl
    rw [h1, pushAlertStore_eq_take e init h]
    rw [ih _ (by simp only [List.length_take]; exact Nat.min_le_left _ _)]
    rw [take_append_take, List.reverse_cons, List.append_assoc]
    rfl

/-- C1: the Alert Store never exceeds its fixed capacity of 500.  For
every sequence of appends starting from a store within capacity, the
resulting store is exactly the newest 500 pushed-or-preexisting entries in
insertion order, newest first (so each intermediate state — an instance of
this theorem at a prefix of `es` — holds at most 500 events, and an append
at capacity evicts the oldest, tail, entry). -/
theorem alert_store_bounded (es init : List AlertEntry) (h : init.length ≤ MAX_ALERTS) :
    pushMany es init = (es.reverse ++ init).take MAX_ALERTS ∧
    (pushMany es init).length ≤ MAX_ALERTS := by
  refine ⟨pushMany_eq_take es init h, ?_⟩
  rw [pushMany_eq_take es init h]
  simp only [List.length_take]
  exact Nat.min_le_left _ _

/-- Two concrete alert entries used to instantiate store theorems. -/
def entryA : AlertEntry := mkAlertEntry 1000 "drone" "critical" "t1" "b1"

/-- A second concrete alert entry. -/
def entryB : AlertEntry := mkAlertEntry 2000 "signal" "warning" "t2" "b2"

theorem alert_store_bounded_witness :
    pushMany [entryA, entryB] [] = (([entryA, entryB]).reverse ++ []).take MAX_ALERTS ∧
    (pushMany [entryA, entryB] []).length ≤ MAX_ALERTS :=
  alert_store_bounded [entryA, entryB] [] (by simp)

/-- A chronological sequence of `push_alert` calls starting from an empty
store: the alert pushed at time `t` carries `id = t` (milliseconds), as in
`int(time.time() * 1000)` at line 446. -/
def pushAtTimes (ts : List Nat) (atype severity title body : String) : List AlertEntry :=
  pushMany (ts.map (fun t => mkAlertEntry t atype severity title body)) []

/-- Two alerts pushed within the same wall-clock millisecond. -/
def twoSameMs : List AlertEntry := pushAtTimes [1000, 1000] "drone" "critical" "t" "b"

/-- C7 counterexample: identifiers are NOT strictly increasing.  Two
events appended during the same millisecond (clock reading 1000 twice)
receive the same identifier, so the store (newest first) is not strictly
decreasing in `id`: the later event's id is not strictly greater than the
earlier one's. -/
theorem push_alert_id_strict_cex :
    (twoSameMs.map AlertEntry.id = [1000, 1000]) ∧
    ¬ List.Pairwise (fun a b : AlertEntry => b.id < a.id) twoSameMs := by
  refine ⟨rfl, fun hP => ?_⟩
  have he : twoSameMs = [mkAlertEntry 1000 "drone" "critical" "t" "b",
      mkAlertEntry 1000 "drone" "critical" "t" "b"] := rfl
  rw [he] at hP
  have hlt := (List.pairwise_cons.mp hP).1 _ (List.mem_singleton_self _)
  exact absurd hlt (lt_irrefl _)

/-- C7 amended: identifiers are monotone but not strictly so.  Assuming the
wall clock is non-decreasing across appends (`ts` is the chronological
sequence of millisecond readings), every later event's identifier is
greater than or equal to — not strictly greater than — every earlier
event's: the store, newest first, is pairwise non-increasing in `id`. -/
theorem push_alert_id_monotone (ts : List Nat) (atype severity title body : String)
    (h : ts.Chain' (· ≤ ·)) :
    List.Pairwise (fun a b : AlertEntry => b.id ≤ a.id)
      (pushAtTimes ts atype severity title body) := by
  have hstore : pushAtTimes ts atype severity title body
      = ((ts.map (fun t => mkAlertEntry t atype severity title body)).reverse).take MAX_ALERTS := by
    unfold pushAtTimes
    rw [pushMany_eq_take _ _ (by simp)]
    simp
  rw [hstore]
  have hp : List.Pairwise (fun a b : AlertEntry => b.id ≤ a.id)
      ((ts.map (fun t => mkAlertEntry t atype severity title body)).reverse) := by
    rw [List.pairwise_reverse, List.pairwise_map]
    exact (List.chain'_iff_pairwise.mp h).imp (fun hab => hab)
  exact List.Pairwise.sublist (List.take_sublist _ _) hp

theorem push_alert_id_monotone_witness :
    List.Chain' (fun a b : Nat => a ≤ b) [1000, 1000, 2000] ∧
    List.Pairwise (fun a b : AlertEntry => b.id ≤ a.id)
      (pushAtTimes [1000, 1000, 2000] "drone" "critical" "t" "b") :=
  ⟨by norm_num [List.chain'_cons, List.chain'_singleton],
   push_alert_id_monotone [1000, 1000, 2000] "drone" "critical" "t" "b"
     (by norm_num [List.chain'_cons, List.chain'_singleton])⟩

/-- The signal sub-dict `kismet_device_base_signal` of a device record;
the field `kismet_common_signal_last_signal` may itself be absent. -/
structure SignalInfo where
  last_signal : Option Int
deriving Repr, DecidableEq

/-- A raw Kismet device record, restricted to the keys the engine reads.
Each `Option` field is a dict key that may be missing; `analyze_devices`
reads them with `dev.get(key, default)`. -/
structure Device where
  macaddr : Option String
  name : Option String
  phyname : Option String
  manuf : Option String
  signal : Option SignalInfo
deriving Repr, DecidableEq

/-- `dev.get("kismet_device_base_name", "")` (line 464). -/
def ssidOf (d : Device) : String := d.name.getD ""

/-- `dev.get("kismet_device_base_macaddr", "")` (line 465). -/
def macOf (d : Device) : String := d.macaddr.getD ""

/-- `dev.get("kismet_device_base_phyname", "")` (line 466). -/
def phyOf (d : Device) : String := d.phyname.getD ""

/-- `dev.get("kismet_device_base_manuf", "")` (line 469). -/
def manufOf (d : Device) : String := d.manuf.getD ""

/-- Lines 467-468: `signal = dev.get(..., {})` then
`signal.get("kismet_common_signal_last_signal", -100)`. -/
def lastSignalOf (d : Device) : Int := ((d.signal.getD ⟨none⟩).last_signal).getD (-100)

/-- `ssid_map or mac`: the display name falls back to the hardware address
when the name is empty. -/
def dispNameOf (d : Device) : String := if ssidOf d = "" then macOf d else ssidOf d

/-- DRONE_KEYWORDS (lines 325-329). -/
def DRONE_KEYWORDS : List String :=
  ["dji", "parrot", "yuneec", "autel", "skydio", "bebop", "phantom",
   "mavic", "inspire", "matrice", "tello", "fpv", "drone", "uav",
   "ardupilot", "pixhawk", "droneid"]

/-- INTERESTING_SIGNAL = -60 dBm (line 331). -/
def INTERESTING_SIGNAL : Int := -60

/-- Line 472: `combined = (ssid_map + " " + manuf).lower()`, as a char
list; `Char.toLower` models Python `str.lower` on the ASCII fragment. -/
def combinedOf (d : Device) : List Char :=
  ((ssidOf d ++ " " ++ manufOf d).toList).map Char.toLower

/-- Python `kw in combined` — substring containment (line 474). -/
def kwMatches (d : Device) (kw : String) : Bool :=
  decide (kw.toList <:+: combinedOf d)

/-- A candidate alert as handed to `push_alert`: category string, severity
string, title, body. -/
structure Cand where
  atype : String
  severity : String
  title : String
  body : String
deriving Repr, DecidableEq

/-- An ASCII apostrophe, used in the keyword-match body string. -/
def SQ : String := String.singleton (Char.ofNat 39)

/-- The f-string body of the keyword-match alert (line 478). -/
def keywordBody (d : Device) (kw : String) : String :=
  "MAC: " ++ macOf d ++ " | PHY: " ++ phyOf d ++ " | Manuf: " ++ manufOf d ++
    " | Signal: " ++ toString (lastSignalOf d) ++ " dBm | Keyword matched: " ++
    SQ ++ kw ++ SQ

/-- Rule 1 of `analyze_devices` (lines 471-481): first matching keyword
wins (`break`), emitting one critical "drone" alert. -/
def keywordAlerts (d : Device) : List Cand :=
  match DRONE_KEYWORDS.find? (kwMatches d) with
  | some kw => [⟨"drone", "critical", "🚁 Drone detected: " ++ dispNameOf d, keywordBody d kw⟩]
  | none => []

/-- Rule 2 of `analyze_devices` (lines 483-490): UAV PHY sighting. -/
def phyAlerts (d : Device) : List Cand :=
  if phyOf d = "UAV" then
    [⟨"drone", "critical", "🚁 UAV PHY device: " ++ dispNameOf d,
      "MAC: " ++ macOf d ++ " | Manuf: " ++ manufOf d ++ " | Signal: " ++
        toString (lastSignalOf d) ++ " dBm"⟩]
  else []

/-- Rule 3 of `analyze_devices` (lines 492-499): unusually strong signal. -/
def signalAlerts (d : Device) : List Cand :=
  if INTERESTING_SIGNAL < lastSignalOf d then
    [⟨"signal", "warning", "📶 Strong signal: " ++ dispNameOf d,
      "MAC: " ++ macOf d ++ " | Signal: " ++ toString (lastSignalOf d) ++
        " dBm | PHY: " ++ phyOf d⟩]
  else []

/-- The candidate alerts one device contributes, in the push order of the
loop body of `analyze_devices` (lines 462-499). -/
def analyzeDevice (d : Device) : List Cand :=
  keywordAlerts d ++ phyAlerts d ++ signalAlerts d

theorem string_toList_append (a b : String) : (a ++ b).toList = a.toList ++ b.toList := by
  cases a
  cases b
  rfl

theorem find?_eq_some_first {α : Type} (p : α → Bool) (l : List α) (a : α)
    (h : l.find? p = some a) :
    ∃ i, l.get? i = some a ∧ p a = true ∧
      ∀ j, j < i → ∀ b, l.get? j = some b → p b = false := by
  induction l with
  | nil => simp [List.find?] at h
  | cons x xs ih =>
    by_cases hx : p x = true
    · rw [List.find?_cons_of_pos _ hx] at h
      obtain rfl : x = a := Option.some.inj h
      exact ⟨0, List.get?_cons_zero, hx, fun j hj => absurd hj (Nat.not_lt_zero j)⟩
    · rw [List.find?_cons_of_neg _ hx] at h
      obtain ⟨i, hget, hpa, hfirst⟩ := ih h
      refine ⟨i + 1, by simpa using hget, hpa, ?_⟩
      intro j hj b hb
      cases j with
      | zero =>
        obtain rfl : x = b := Option.some.inj (by simpa using hb)
        exact Bool.eq_false_iff.mpr hx
      | succ j' =>
        exact hfirst j' (Nat.lt_of_succ_lt_succ hj) b (by simpa using hb)

/-- C3: the keyword detector.  For every device, (i) the rule emits at
most one candidate; (ii) it emits none exactly when no keyword of
DRONE_KEYWORDS is a substring of the lowercased name+manufacturer
concatenation; (iii) every emitted candidate is a critical "drone" alert
whose body contains the matched keyword, and that keyword is the first
matching one in the list (no earlier keyword matches). -/
theorem keyword_rule_correct (d : Device) :
    (keywordAlerts d).length ≤ 1 ∧
    (keywordAlerts d = [] ↔ ∀ kw ∈ DRONE_KEYWORDS, kwMatches d kw = false) ∧
    (∀ c ∈ keywordAlerts d, c.atype = "drone" ∧ c.severity = "critical" ∧
      ∃ kw i, DRONE_KEYWORDS.get? i = some kw ∧ kwMatches d kw = true ∧
        (∀ j, j < i → ∀ kw2, DRONE_KEYWORDS.get? j = some kw2 → kwMatches d kw2 = false) ∧
        kw.toList <:+: c.body.toList) := by
  cases hf : DRONE_KEYWORDS.find? (kwMatches d) with
  | none =>
    have he : keywordAlerts d = [] := by simp [keywordAlerts, hf]
    refine ⟨by simp [he], ⟨fun _ kw hkw => ?_, fun _ => he⟩, by simp [he]⟩
    exact Bool.eq_false_iff.mpr (List.find?_eq_none.mp hf kw hkw)
  | some kw =>
    have he : keywordAlerts d =
        [⟨"drone", "critical", "🚁 Drone detected: " ++ dispNameOf d, keywordBody d kw⟩] := by
      simp [keywordAlerts, hf]
    refine ⟨by simp [he], ?_, ?_⟩
    · constructor
      · intro habs
        rw [he] at habs
        exact absurd habs (by simp)
      · intro hall
        have := hall kw (List.mem_of_find?_eq_some hf)
        rw [List.find?_some hf] at this
        exact absurd this (by simp)
    · intro c hc
      rw [he, List.mem_singleton] at hc
      subst hc
      refine ⟨rfl, rfl, kw, ?_⟩
      obtain ⟨i, hget, hpa, hfirst⟩ := find?_eq_some_first (kwMatches d) DRONE_KEYWORDS kw hf
      refine ⟨i, hget, hpa, hfirst, ?_⟩
      show kw.toList <:+: (keywordBody d kw).toList
      unfold keywordBody
      rw [string_toList_append, string_toList_append]
      exact ⟨_, _, rfl⟩

/-- The scenario device of the spec (section 8). -/
def devDJI : Device :=
  ⟨some "60:60:1F:AA:BB:CC", some "DJI-Mavic-3-Pro", some "IEEE802.11",
   some "DJI Technology", some ⟨some (-38)⟩⟩

theorem keyword_rule_correct_witness :
    (keywordAlerts devDJI).length ≤ 1 :=
  (keyword_rule_correct devDJI).1

/-- C4: the signal-strength detector emits exactly one warning "signal"
candidate when the device's last-seen signal is strictly greater than
-60 dBm and none otherwise, for every device that carries a last-seen
signal value. -/
theorem signal_rule_correct (d : Device) (s : Int) (h : d.signal = some ⟨some s⟩) :
    (signalAlerts d).length = (if INTERESTING_SIGNAL < s then 1 else 0) ∧
    ∀ c ∈ signalAlerts d, c.atype = "signal" ∧ c.severity = "warning" := by
  have hs : lastSignalOf d = s := by simp [lastSignalOf, h]
  constructor
  · unfold signalAlerts
    rw [hs]
    split <;> simp
  · intro c hc
    unfold signalAlerts at hc
    split at hc
    · rw [List.mem_singleton] at hc
      subst hc
      exact ⟨rfl, rfl⟩
    · exact absurd hc (by simp)

theorem signal_rule_correct_witness :
    devDJI.signal = some ⟨some (-38)⟩ ∧
    (signalAlerts devDJI).length = (if INTERESTING_SIGNAL < (-38 : Int) then 1 else 0) :=
  ⟨rfl, (signal_rule_correct devDJI (-38) rfl).1⟩

/-- A device whose record has no `kismet_device_base_signal` dict. -/
def devNoSig : Device := ⟨some "AA:BB:CC:00:11:22", some "Mystery", some "UAV", some "Acme", none⟩

/-- C10: a device whose signal structure is absent, or lacks the
last-signal field, is read as -100 dBm: it is not treated as malformed,
the keyword and PHY rules still run and fully determine its candidates,
the PHY rule fires normally (exactly when the PHY tag is "UAV"), and the
strong-signal rule never fires. -/
theorem missing_signal_default (d : Device)
    (h : d.signal = none ∨ d.signal = some ⟨none⟩) :
    lastSignalOf d = -100 ∧
    signalAlerts d = [] ∧
    analyzeDevice d = keywordAlerts d ++ phyAlerts d ∧
    (phyAlerts d).length = (if phyOf d = "UAV" then 1 else 0) := by
  have hs : lastSignalOf d = -100 := by
    rcases h with h | h <;> simp [lastSignalOf, h]
  have hsig : signalAlerts d = [] := by
    unfold signalAlerts
    rw [hs]
    norm_num [INTERESTING_SIGNAL]
  refine ⟨hs, hsig, ?_, ?_⟩
  · unfold analyzeDevice
    rw [hsig, List.append_nil]
  · unfold phyAlerts
    split <;> simp

theorem missing_signal_default_witness :
    lastSignalOf devNoSig = -100 ∧ signalAlerts devNoSig = [] :=
  ⟨(missing_signal_default devNoSig (Or.inl rfl)).1,
   (missing_signal_default devNoSig (Or.inl rfl)).2.1⟩

/-- One value of the `state["watched_devices"]` dict (lines 429-435). -/
structure WatchEntry where
  mac : String
  name : String
  phyname : String
  added_at : Nat
  auto : Bool
deriving Repr, DecidableEq

/-- `state["automations"]["auto_watch_rules"]` (lines 47-51). -/
structure AutoWatchRules where
  drone_alerts : Bool
  btle_alerts : Bool
  strong_signal : Bool
deriving Repr, DecidableEq

/-- Python `mac in state["watched_devices"]`: key membership in the
watchlist dict, modelled as an insertion-ordered association list. -/
def wlHas (mac : String) (wl : List (String × WatchEntry)) : Bool :=
  wl.any (fun p => p.1 == mac)

/-- Number of watchlist entries stored under a given identifier. -/
def countKey (mac : String) (wl : List (String × WatchEntry)) : Nat :=
  (wl.filter (fun p => p.1 == mac)).length

/-- The rule disjunction of `_auto_watch_device` (lines 418-425). -/
def shouldWatchB (rules : AutoWatchRules) (atype phy : String) : Bool :=
  (rules.drone_alerts && atype == "drone") ||
  (rules.btle_alerts && (atype == "signal" || atype == "kismet") &&
    (phy == "BTLE" || phy == "Bluetooth")) ||
  (rules.strong_signal && atype == "signal")

/-- `_auto_watch_device` (lines 408-436): returns the new watchlist.
Returns unchanged when no device is attached, when the identifier is empty
or already watched, or when no enabled rule applies; otherwise inserts one
entry keyed by the identifier (dict insertion appends). -/
def autoWatchDevice (rules : AutoWatchRules) (atype : String) (device : Option Device)
    (now : Nat) (wl : List (String × WatchEntry)) : List (String × WatchEntry) :=
  match device with
  | none => wl
  | some d =>
    if (macOf d == "") || wlHas (macOf d) wl then wl
    else if shouldWatchB rules atype (phyOf d) then
      wl ++ [(macOf d, ⟨macOf d, dispNameOf d, phyOf d, now, true⟩)]
    else wl

theorem autoWatch_already (rules : AutoWatchRules) (atype : String) (d : Device)
    (now : Nat) (wl : List (String × WatchEntry)) (h : wlHas (macOf d) wl = true) :
    autoWatchDevice rules atype (some d) now wl = wl := by
  unfold autoWatchDevice
  simp [h]

theorem autoWatch_adds (rules : AutoWatchRules) (atype : String) (d : Device)
    (now : Nat) (wl : List (String × WatchEntry))
    (hm : (macOf d == "") = false) (hmem : wlHas (macOf d) wl = false)
    (hsw : shouldWatchB rules atype (phyOf d) = true) :
    autoWatchDevice rules atype (some d) now wl
      = wl ++ [(macOf d, ⟨macOf d, dispNameOf d, phyOf d, now, true⟩)] := by
  unfold autoWatchDevice
  simp [hm, hmem, hsw]

theorem autoWatch_idem (rules : AutoWatchRules) (atype : String) (d : Device)
    (now : Nat) (wl : List (String × WatchEntry)) :
    autoWatchDevice rules atype (some d) now (autoWatchDevice rules atype (some d) now wl)
      = autoWatchDevice rules atype (some d) now wl := by
  cases hm : (macOf d == "") with
  | true =>
    unfold autoWatchDevice
    simp [hm]
  | false =>
    cases hmem : wlHas (macOf d) wl with
    | true =>
      rw [autoWatch_already rules atype d now wl hmem, autoWatch_already rules atype d now wl hmem]
    | false =>
      cases hsw : shouldWatchB rules atype (phyOf d) with
      | false =>
        have hid : autoWatchDevice rules atype (some d) now wl = wl := by
          unfold autoWatchDevice
          simp [hm, hmem, hsw]
        rw [hid, hid]
      | true =>
        rw [autoWatch_adds rules atype d now wl hm hmem hsw]
        apply autoWatch_already
        unfold wlHas
        rw [List.any_append]
        simp

theorem countKey_eq_zero_of_not_has (mac : String) (wl : List (String × WatchEntry))
    (h : wlHas mac wl = false) : countKey mac wl = 0 := by
  unfold countKey
  unfold wlHas at h
  rw [List.length_eq_zero]
  rw [List.any_eq_false] at h
  exact List.filter_eq_nil_iff.mpr h

/-- C5: Watch Policy evaluation per device identifier.  It is a no-op when
no device is attached or when the identifier is already watchlisted;
re-evaluating any positive number of times equals evaluating once; and
when the policy fires (identifier non-empty, not yet watched, some enabled
rule applies) any positive number of evaluations leaves exactly one
watchlist entry under that identifier. -/
theorem auto_watch_idempotent (rules : AutoWatchRules) (atype : String) (d : Device)
    (now : Nat) (wl : List (String × WatchEntry)) :
    autoWatchDevice rules atype none now wl = wl ∧
    (wlHas (macOf d) wl = true → autoWatchDevice rules atype (some d) now wl = wl) ∧
    (∀ n : Nat, (autoWatchDevice rules atype (some d) now)^[n + 1] wl
        = autoWatchDevice rules atype (some d) now wl) ∧
    ((macOf d == "") = false → wlHas (macOf d) wl = false →
      shouldWatchB rules atype (phyOf d) = true →
      ∀ n : Nat,
        countKey (macOf d) ((autoWatchDevice rules atype (some d) now)^[n + 1] wl) = 1) := by
  have hiter : ∀ n : Nat, (autoWatchDevice rules atype (some d) now)^[n + 1] wl
      = autoWatchDevice rules atype (some d) now wl := by
    intro n
    induction n with
    | zero => rfl
    | succ n ih =>
      rw [Function.iterate_succ_apply', ih, autoWatch_idem]
  refine ⟨rfl, autoWatch_already rules atype d now wl, hiter, ?_⟩
  intro hm hmem hsw n
  rw [hiter n, autoWatch_adds rules atype d now wl hm hmem hsw]
  unfold countKey
  rw [List.filter_append, List.length_append]
  have h0 : countKey (macOf d) wl = 0 := countKey_eq_zero_of_not_has _ _ hmem
  unfold countKey at h0
  rw [h0]
  simp

/-- Concrete automation rules with every auto-watch rule enabled. -/
def rulesAll : AutoWatchRules := ⟨true, true, true⟩

theorem auto_watch_idempotent_witness :
    wlHas (macOf devDJI) [] = false ∧
    countKey (macOf devDJI) ((autoWatchDevice rulesAll "drone" (some devDJI) 7)^[2] []) = 1 :=
  ⟨rfl, (auto_watch_idempotent rulesAll "drone" devDJI 7 []).2.2.2 rfl rfl rfl 1⟩

/-- The four save-related flags of `state["automations"]` (lines 43-46). -/
structure AutoCfg where
  alert_save_enabled : Bool
  save_device_details : Bool
  save_device_traffic : Bool
  save_watched_only : Bool
deriving Repr, DecidableEq

/-- One entry of the `state["alert_saves"]` log (lines 394-397, 402-406). -/
structure SaveRecord where
  ts : String
  file : String
  alert_type : String
  device : String
  ok : Bool
  error : Option String
deriving Repr, DecidableEq

/-- `_sanitize_filename` (lines 333-335): map every character outside
alphanumerics, hyphen and underscore to an underscore, then truncate the
result to 80 characters.  `Char.isAlphanum` models Python `str.isalnum`
on the ASCII fragment. -/
def sanitizeFilename (s : String) : String :=
  String.mk ((s.toList.map
    (fun c => if c.isAlphanum || c == '-' || c == '_' then c else '_')).take 80)

/-- The `dev_name` computation of `_save_alert_device` (lines 354-356). -/
def devNameForSave (device : Option Device) : String :=
  match device with
  | none => ""
  | some d => if ssidOf d = "" then d.macaddr.getD "unknown" else ssidOf d

/-- The artifact filename (line 358):
`alert_<sanitized type>_<sanitized device name>_<timestamp>.json`. -/
def saveFileName (alertType : String) (device : Option Device) (tsStr : String) : String :=
  "alert_" ++ sanitizeFilename alertType ++ "_" ++
    sanitizeFilename (devNameForSave device) ++ "_" ++ tsStr ++ ".json"

/-- The SaveRecord dict inserted at the head of the log: the success one
at lines 394-397 (no error field), the failure one at lines 402-406
(carrying the exception text). -/
def mkSaveRecord (alertType : String) (device : Option Device) (tsStr : String)
    (writeOk : Bool) (errText : String) : SaveRecord :=
  ⟨tsStr, saveFileName alertType device tsStr, alertType, devNameForSave device,
   writeOk, if writeOk then none else some errText⟩

/-- The watchlist filter of `_save_alert_device` (lines 345-349): blocks
the save when the restriction is on, a device is attached, and its
identifier is not yet watched. -/
def watchGateBlocks (auto : AutoCfg) (watched : List (String × WatchEntry))
    (device : Option Device) : Bool :=
  auto.save_watched_only &&
    (match device with
     | some d => !wlHas (macOf d) watched
     | none => false)

/-- `_save_alert_device` (lines 337-406), restricted to its effect on the
`state["alert_saves"]` log.  `writeOk` tells whether the file write threw
(the only fallible step, wrapped in try/except — the function is total, so
a failure is recorded, never raised); `tsStr` is the wall-clock timestamp
string.  On success the log is trimmed to 100 entries (line 398); the
except branch performs no trim. -/
def saveAlertDevice (auto : AutoCfg) (watched : List (String × WatchEntry))
    (alertType : String) (device : Option Device) (tsStr : String)
    (writeOk : Bool) (errText : String) (saves : List SaveRecord) : List SaveRecord :=
  if !auto.alert_save_enabled then saves
  else if !auto.save_device_details && !auto.save_device_traffic then saves
  else if watchGateBlocks auto watched device then saves
  else
    let r := mkSaveRecord alertType device tsStr writeOk errText
    if writeOk then (r :: saves).take 100 else r :: saves

/-- C2: the gate sequence of Alert-Save Automation.  (i) master flag off:
the log is untouched, no SaveRecord; (ii) both inclusion flags off: no
SaveRecord; (iii) watched-only restriction on and the device not in the
watchlist: no SaveRecord for that device's alert; (iv) when every gate
passes, exactly one SaveRecord is put at the head of the log per attempt,
carrying the success flag and — on a write failure — the error text; the
write failure is recorded, never raised (the embedding is a total
function). -/
theorem save_gate_correct (auto : AutoCfg) (watched : List (String × WatchEntry))
    (alertType : String) (device : Option Device) (tsStr : String)
    (writeOk : Bool) (errText : String) (saves : List SaveRecord) :
    (auto.alert_save_enabled = false →
      saveAlertDevice auto watched alertType device tsStr writeOk errText saves = saves) ∧
    (auto.save_device_details = false → auto.save_device_traffic = false →
      saveAlertDevice auto watched alertType device tsStr writeOk errText saves = saves) ∧
    (∀ d, device = some d → auto.save_watched_only = true → wlHas (macOf d) watched = false →
      saveAlertDevice auto watched alertType device tsStr writeOk errText saves = saves) ∧
    (auto.alert_save_enabled = true →
      (auto.save_device_details || auto.save_device_traffic) = true →
      (auto.save_watched_only = false ∨ device = none ∨
        (∃ d, device = some d ∧ wlHas (macOf d) watched = true)) →
      (saveAlertDevice auto watched alertType device tsStr writeOk errText saves).head? =
          some (mkSaveRecord alertType device tsStr writeOk errText) ∧
      (saveAlertDevice auto watched alertType device tsStr writeOk errText saves).tail =
          (if writeOk then saves.take 99 else saves)) := by
  refine ⟨?_, ?_, ?_, ?_⟩
  · intro h
    unfold saveAlertDevice
    simp [h]
  · intro h1 h2
    unfold saveAlertDevice
    by_cases he : auto.alert_save_enabled <;> simp [he, h1, h2]
  · intro d hd hw hmem
    unfold saveAlertDevice
    subst hd
    by_cases he : auto.alert_save_enabled <;>
      by_cases h1 : auto.save_device_details <;>
        by_cases h2 : auto.save_device_traffic <;>
          simp [he, h1, h2, watchGateBlocks, hw, hmem]
  · intro he hflags hwatch
    have hgate : watchGateBlocks auto watched device = false := by
      rcases hwatch with hw | hdev | ⟨d, hd, hmem⟩
      · simp [watchGateBlocks, hw]
      · subst hdev
        simp [watchGateBlocks]
      · subst hd
        simp [watchGateBlocks, hmem]
    have hflags2 : (!auto.save_device_details && !auto.save_device_traffic) = false := by
      revert hflags
      cases auto.save_device_details <;> cases auto.save_device_traffic <;> simp
    have hform : saveAlertDevice auto watched alertType device tsStr writeOk errText saves =
        (if writeOk
          then (mkSaveRecord alertType device tsStr writeOk errText :: saves).take 100
          else mkSaveRecord alertType device tsStr writeOk errText :: saves) := by
      unfold saveAlertDevice
      rw [if_neg (by simp [he]), if_neg (by simp [hflags2]), if_neg (by simp [hgate])]
    rw [hform]
    cases writeOk with
    | true =>
      constructor
      · rw [if_pos rfl]
        rw [show (100 : Nat) = 99 + 1 from rfl, List.take_succ_cons]
        rfl
      · rw [if_pos rfl, if_pos rfl]
        rw [show (100 : Nat) = 99 + 1 from rfl, List.take_succ_cons]
        rfl
    | false =>
      exact ⟨rfl, rfl⟩

/-- Concrete automation flags: saving enabled, both payload flags on, no
watched-only restriction. -/
def cfgSave : AutoCfg := ⟨true, true, true, false⟩

theorem save_gate_correct_witness :
    cfgSave.alert_save_enabled = true ∧
    (saveAlertDevice cfgSave [] "drone" none "20240101_000000" true "" []).head? =
      some (mkSaveRecord "drone" none "20240101_000000" true "") :=
  ⟨rfl, ((save_gate_correct cfgSave [] "drone" none "20240101_000000" true "" []).2.2.2
    rfl rfl (Or.inl rfl)).1⟩

/-- A placeholder SaveRecord, as produced by an earlier successful save. -/
def recStub : SaveRecord := ⟨"t", "f", "drone", "", true, none⟩

/-- A save log already holding exactly 100 entries. -/
def savesFull : List SaveRecord := List.replicate 100 recStub

/-- C6 failing input: with the save log at its cap of 100 entries, a save
attempt whose file write fails appends its failure SaveRecord WITHOUT
trimming (only the success branch at line 398 truncates to 100), so the
log reaches 101 entries — the cap is violated after a failed attempt. -/
theorem save_log_cap_violated :
    savesFull.length = 100 ∧
    (saveAlertDevice cfgSave [] "drone" none "ts" false "disk full" savesFull).length = 101 := by
  constructor
  · simp [savesFull]
  · simp [saveAlertDevice, cfgSave, watchGateBlocks, savesFull]

/-- C9 counterexample: `_sanitize_filename` does not remove characters
outside the allowed set — it replaces each with an underscore.  On the
input "a b" removal would give "ab", but the function yields "a_b". -/
theorem sanitize_cex :
    sanitizeFilename "a b" = "a_b" ∧ sanitizeFilename "a b" ≠ "ab" := by
  constructor
  · decide
  · decide

/-- C9 amended: the sanitization keeps length at most 80 (exactly
`min 80 (length of the input)`), every output character is alphanumeric,
a hyphen or an underscore, and each position holds the input character
when it is in the allowed set and an underscore — not nothing — when it
is outside it. -/
theorem sanitize_correct (s : String) :
    (sanitizeFilename s).toList.length = min 80 s.toList.length ∧
    (∀ c ∈ (sanitizeFilename s).toList, (c.isAlphanum || c == '-' || c == '_') = true) ∧
    (∀ i : Nat, ∀ h1 : i < (sanitizeFilename s).toList.length,
      ∀ h2 : i < s.toList.length,
      (sanitizeFilename s).toList.get ⟨i, h1⟩ =
        (if (s.toList.get ⟨i, h2⟩).isAlphanum || s.toList.get ⟨i, h2⟩ == '-' ||
            s.toList.get ⟨i, h2⟩ == '_'
         then s.toList.get ⟨i, h2⟩ else '_')) := by
  refine ⟨?_, ?_, ?_⟩
  · show ((s.toList.map _).take 80).length = _
    rw [List.length_take, List.length_map]
  · intro c hc
    have hc' := List.mem_of_mem_take hc
    obtain ⟨a, _, ha⟩ := List.mem_map.mp hc'
    by_cases hin : (a.isAlphanum || a == '-' || a == '_') = true
    · rw [if_pos hin] at ha
      rw [← ha]
      exact hin
    · rw [if_neg hin] at ha
      rw [← ha]
      decide
  · intro i h1 h2
    show ((s.toList.map _).take 80).get ⟨i, _⟩ = _
    rw [List.get_eq_getElem, List.getElem_take, List.getElem_map]
    rfl

theorem sanitize_correct_witness :
    (sanitizeFilename "a b!").toList.length = min 80 ("a b!" : String).toList.length :=
  (sanitize_correct "a b!").1

/-- A raw record of Kismet's own alert feed as read by
`poll_kismet_alerts` (lines 510-515): free-text header and body, numeric
severity ordinal; every field read with a default. -/
structure KAlert where
  header : Option String
  text : Option String
  severity : Option Int
deriving Repr, DecidableEq

/-- The mirrored event for one upstream record (lines 510-515): category
"kismet", severity "warning" when the ordinal (default 5) is strictly
below 10 and "info" otherwise, title from the header (default
"Kismet Alert"), body from the text (default empty). -/
def mirrorOne (a : KAlert) : Cand :=
  ⟨"kismet", if a.severity.getD 5 < 10 then "warning" else "info",
   a.header.getD "Kismet Alert", a.text.getD ""⟩

/-- `poll_kismet_alerts` (lines 504-517) on a successfully fetched batch:
the candidates pushed, in push order.  The loop runs over `data[-20:]` —
only the final 20 records of the batch (line 509). -/
def pollKismetAlerts (data : List KAlert) : List Cand :=
  (data.drop (data.length - 20)).map mirrorOne

/-- A fetched batch of 21 upstream alert records. -/
def bigBatch : List KAlert := List.replicate 21 ⟨none, none, some 3⟩

/-- C8 counterexample: a mirror-poll does NOT append one event per record
of the fetched batch.  A batch of 21 records yields only 20 mirrored
events, because the loop iterates over `data[-20:]`. -/
theorem mirror_poll_cex :
    bigBatch.length = 21 ∧ (pollKismetAlerts bigBatch).length = 20 := by
  constructor
  · simp [bigBatch]
  · simp [pollKismetAlerts, bigBatch]

/-- C8 amended: a mirror-poll appends one "kismet"-category event for
every record among the LAST 20 of the fetched batch (all of them when the
batch holds at most 20), in batch order, with severity mapped from the
record's ordinal (default 5): strictly below 10 gives "warning",
otherwise "info"; title and body come from the record's header and
text. -/
theorem mirror_poll_correct (data : List KAlert) (i : Nat)
    (h : i < (pollKismetAlerts data).length) :
    (pollKismetAlerts data).length = min 20 data.length ∧
    ∃ h2 : data.length - 20 + i < data.length,
      (pollKismetAlerts data).get ⟨i, h⟩ =
        ⟨"kismet",
         if (data.get ⟨data.length - 20 + i, h2⟩).severity.getD 5 < 10 then "warning"
         else "info",
         (data.get ⟨data.length - 20 + i, h2⟩).header.getD "Kismet Alert",
         (data.get ⟨data.length - 20 + i, h2⟩).text.getD ""⟩ := by
  have hlen : (pollKismetAlerts data).length = min 20 data.length := by
    unfold pollKismetAlerts
    rw [List.length_map, List.length_drop]
    omega
  refine ⟨hlen, ?_⟩
  have h2 : data.length - 20 + i < data.length := by
    rw [hlen] at h
    omega
  refine ⟨h2, ?_⟩
  show ((data.drop (data.length - 20)).map mirrorOne).get ⟨i, h⟩ = _
  rw [List.get_eq_getElem, List.get_eq_getElem, List.getElem_map, List.getElem_drop]
  rfl

theorem mirror_poll_correct_witness :
    (pollKismetAlerts bigBatch).length = min 20 bigBatch.length :=
  (mirror_poll_correct bigBatch 0 (by simp [pollKismetAlerts, bigBatch])).1

end KismetDash
